import Mathlib

/-!
Verification of the vehicle-telemetry simulator's stateful generator
(`app/simulator/generator.py`), its configuration handling
(`app/config.py`) and the record model (`app/models/telemetry_data.py`).

The per-tick transition `TelemetryGenerator.generate_telemetry_data` is
embedded as a pure function `generateTelemetryData : VehicleState →
TickOracle → VehicleState × TelemetryData`, where `TickOracle` carries one
field per random draw the Python code performs during a tick, and
`TickOracle.Valid` states the range of each draw (`random.randint(a,b)`
yields an integer in `[a,b]`, `random.uniform(a,b)` a float in `[a,b]`,
`random.sample(pool, k)` a list of `k` distinct positions of `pool`).
Python floats are modelled as rationals; `round(x, n)` (round half to
even) is `pyRound n x` and `int(x)` is `truncQ x`.
-/

/-- Truncation toward zero, the behaviour of Python's `int()` on a float. -/
def truncQ (x : ℚ) : ℤ :=
  if 0 ≤ x then ⌊x⌋ else -⌊-x⌋

/-- Round to the nearest integer, ties to the even integer: the rounding
used by Python's builtin `round` and by `format(x, ".5f")`. -/
def roundHalfEven (x : ℚ) : ℤ :=
  if x - ⌊x⌋ < 1/2 then ⌊x⌋
  else if 1/2 < x - ⌊x⌋ then ⌊x⌋ + 1
  else if ⌊x⌋ % 2 = 0 then ⌊x⌋ else ⌊x⌋ + 1

/-- Python's `round(x, n)` for a nonnegative number of digits `n`. -/
def pyRound (n : ℕ) (x : ℚ) : ℚ :=
  (roundHalfEven (x * 10 ^ n) : ℚ) / 10 ^ n

theorem floor_le_roundHalfEven (x : ℚ) : ⌊x⌋ ≤ roundHalfEven x := by
  unfold roundHalfEven
  split_ifs <;> omega

theorem roundHalfEven_le_floor_add_one (x : ℚ) : roundHalfEven x ≤ ⌊x⌋ + 1 := by
  unfold roundHalfEven
  split_ifs <;> omega

theorem roundHalfEven_mono {x y : ℚ} (h : x ≤ y) :
    roundHalfEven x ≤ roundHalfEven y := by
  rcases lt_or_le ⌊x⌋ ⌊y⌋ with hf | hf
  · calc roundHalfEven x ≤ ⌊x⌋ + 1 := roundHalfEven_le_floor_add_one x
      _ ≤ ⌊y⌋ := by omega
      _ ≤ roundHalfEven y := floor_le_roundHalfEven y
  · have hxy : ⌊x⌋ = ⌊y⌋ := le_antisymm (Int.floor_le_floor h) hf
    unfold roundHalfEven
    rw [hxy]
    split_ifs <;> first | omega | linarith

theorem pyRound_mono (n : ℕ) {x y : ℚ} (h : x ≤ y) :
    pyRound n x ≤ pyRound n y := by
  unfold pyRound
  have hp : (0:ℚ) < 10 ^ n := by positivity
  have := roundHalfEven_mono (mul_le_mul_of_nonneg_right h (le_of_lt hp))
  exact div_le_div_of_nonneg_right (by exact_mod_cast this) hp.le

theorem le_pyRound (n : ℕ) (x : ℚ) (k : ℤ) (h : (k : ℚ) ≤ x * 10 ^ n) :
    (k : ℚ) / 10 ^ n ≤ pyRound n x := by
  unfold pyRound
  have hp : (0:ℚ) < 10 ^ n := by positivity
  have h1 : k ≤ ⌊x * 10 ^ n⌋ := Int.le_floor.mpr h
  have h2 : k ≤ roundHalfEven (x * 10 ^ n) :=
    le_trans h1 (floor_le_roundHalfEven _)
  exact div_le_div_of_nonneg_right (by exact_mod_cast h2) hp.le

/-- Left-pad a decimal string with zeros to width `n`, as Python's fixed
formatting does for the fractional part. -/
def padZeros (n : ℕ) (s : String) : String :=
  String.mk (List.replicate (n - s.length) '0') ++ s

/-- Python's `format(x, ".5f")`: optional minus sign, integer digits with
no zero-padding, a dot, exactly five fractional digits. -/
def formatFixed5 (x : ℚ) : String :=
  let n := roundHalfEven (x * 100000)
  let a := n.natAbs
  let ipart := a / 100000
  let fpart := a % 100000
  (if n < 0 then "-" else "") ++ toString ipart ++ "." ++ padZeros 5 (toString fpart)

/-! ## Data model -/

/-- `TelemetryGenerator._base_state` together with the keys `__init__` and
`generate_telemetry_data` add to it: the mutable vehicle state carried
between ticks.  `fuelUsedTotal` starts absent (the Python dict has no
`fuel_used_total` key until the first moving tick stores one). -/
structure VehicleState where
  lat : ℚ
  lon : ℚ
  totalOdo : ℤ
  tripOdo : ℤ
  fuelLevel : ℚ
  oilLevel : ℤ
  ignition : ℤ
  inMotion : ℤ
  speed : ℤ
  fuelUsedTotal : Option ℚ
  deriving Repr, DecidableEq

/-- The `TelemetryData` pydantic model: the record one tick emits. -/
structure TelemetryData where
  ignition_status : ℤ
  movement_status : ℤ
  speed : ℤ
  gps_location : String
  gsm_signal : ℤ
  rpm : ℤ
  engine_temp : ℤ
  engine_load : ℤ
  oil_level : ℤ
  fuel_level : ℤ
  fuel_used_gps : ℚ
  instant_consumption : ℚ
  obd_faults : List String
  odometer_total : ℤ
  odometer_trip : ℤ
  event_type : Option ℤ
  event_g_value : Option ℤ
  deriving Repr, DecidableEq

/-- One field per random draw `generate_telemetry_data` (and its helpers)
performs during a single tick, in source order.  Boolean fields record the
outcome of a `random.random() < p` test. -/
structure TickOracle where
  ignToggle : Bool
  motToggle : Bool
  speedDec : ℤ
  speedChange : ℤ
  rpmIdle : ℤ
  rpmCity : ℤ
  rpmHwy : ℤ
  rpmHigh : ℤ
  engineLoad : ℤ
  tempOff : ℤ
  tempRun : ℤ
  idleCons : ℚ
  consAdj : ℚ
  tripInc : ℤ
  totalInc : ℤ
  fuelDec : ℚ
  latChange : ℚ
  lonChange : ℚ
  obdTrigger : Bool
  obdIdxs : List ℕ
  curveRand : Bool
  eventG : ℤ
  gsmGood : Bool
  gsmA : ℤ
  gsmB : ℤ
  oilDelta : ℤ
  deriving Repr

/-- The range of each random draw, exactly the distributions the source
samples from (`random.sample(self._obd_faults_pool, randint(1,3))` picks
between one and three distinct positions of the 14-entry pool). -/
def TickOracle.Valid (o : TickOracle) : Prop :=
  (0 ≤ o.speedDec ∧ o.speedDec ≤ 5) ∧
  (-3 ≤ o.speedChange ∧ o.speedChange ≤ 8) ∧
  (700 ≤ o.rpmIdle ∧ o.rpmIdle ≤ 900) ∧
  (1200 ≤ o.rpmCity ∧ o.rpmCity ≤ 2500) ∧
  (2000 ≤ o.rpmHwy ∧ o.rpmHwy ≤ 3500) ∧
  (3500 ≤ o.rpmHigh ∧ o.rpmHigh ≤ 6000) ∧
  (30 ≤ o.engineLoad ∧ o.engineLoad ≤ 70) ∧
  (-60 ≤ o.tempOff ∧ o.tempOff ≤ 40) ∧
  ((if o.engineLoad < 30 then (75:ℤ) else 95) - 5 ≤ o.tempRun ∧
    o.tempRun ≤ (if o.engineLoad < 30 then (75:ℤ) else 95) + 5) ∧
  (1/5 ≤ o.idleCons ∧ o.idleCons ≤ 4/5) ∧
  (-2 ≤ o.consAdj ∧ o.consAdj ≤ 3) ∧
  (200 ≤ o.tripInc ∧ o.tripInc ≤ 500) ∧
  (200 ≤ o.totalInc ∧ o.totalInc ≤ 500) ∧
  (1/100 ≤ o.fuelDec ∧ o.fuelDec ≤ 1/20) ∧
  (-1/1000 ≤ o.latChange ∧ o.latChange ≤ 1/1000) ∧
  (-1/1000 ≤ o.lonChange ∧ o.lonChange ≤ 1/1000) ∧
  (o.obdIdxs.Nodup ∧ 1 ≤ o.obdIdxs.length ∧ o.obdIdxs.length ≤ 3 ∧
    ∀ i ∈ o.obdIdxs, i < 14) ∧
  (10 ≤ o.eventG ∧ o.eventG ≤ 40) ∧
  (1 ≤ o.gsmA ∧ o.gsmA ≤ 5) ∧
  (3 ≤ o.gsmB ∧ o.gsmB ≤ 5) ∧
  (-2 ≤ o.oilDelta ∧ o.oilDelta ≤ 1)

instance (o : TickOracle) : Decidable o.Valid := by
  unfold TickOracle.Valid
  infer_instance

/-! ## Field generators (`generator.py` helpers) -/

/-- `TelemetryGenerator._obd_faults_pool` verbatim: 14 entries, with
`"P0420"` listed both at position 1 and at position 9. -/
def obdFaultsPool : List String :=
  ["P0135", "P0420", "P0300", "P0171", "P0174",
   "P0301", "P0302", "P0303", "P0304", "P0420",
   "U0100", "U0101", "B0001", "B0002"]

/-- `TelemetryGenerator._generate_obd_faults`: with probability 0.15 map
the sampled positions through the pool, otherwise return no faults. -/
def generateObdFaults (o : TickOracle) : List String :=
  if o.obdTrigger then o.obdIdxs.map (fun i => obdFaultsPool.getD i "") else []

/-- `TelemetryGenerator._generate_rpm`. -/
def generateRpm (ignition speed : ℤ) (o : TickOracle) : ℤ :=
  if ignition = 0 then 0
  else if speed = 0 then o.rpmIdle
  else if speed < 40 then o.rpmCity
  else if speed < 80 then o.rpmHwy
  else o.rpmHigh

/-- `TelemetryGenerator._generate_engine_temp`: `tempRun` stands for the
draw `randint(base_temp - 5, base_temp + 5)` (see `TickOracle.Valid`). -/
def generateEngineTemp (ignition : ℤ) (o : TickOracle) : ℤ :=
  if ignition = 0 then o.tempOff else o.tempRun

/-- `TelemetryGenerator._generate_fuel_consumption`. -/
def generateFuelConsumption (speed engineLoad movement : ℤ) (o : TickOracle) : ℚ :=
  if movement = 0 then pyRound 1 o.idleCons
  else pyRound 1 (8 + (speed : ℚ) / 20 + (engineLoad : ℚ) / 10 + o.consAdj)

/-- `TelemetryGenerator._generate_event_data` with an explicit previous
speed (`generate_telemetry_data` always passes one). -/
def generateEventData (speed prevSpeed : ℤ) (curveRand : Bool) (g : ℤ) :
    Option ℤ × ℤ :=
  let speedDiff := speed - prevSpeed
  if 5 < speedDiff then (some 1, min 255 (15 + speedDiff * 2))
  else if speedDiff < -5 then (some 2, min 255 (20 + |speedDiff| * 2))
  else (if curveRand then some 3 else none, g)

/-! ## The per-tick transition (`generate_telemetry_data`, lines 161-253)

Each intermediate value of the Python method body is a named definition so
theorems can speak about it; `generateTelemetryData` assembles them into
the updated state and the emitted record exactly as the source does. -/

/-- Ignition after the 5%-chance toggle. -/
def tickIgn (s : VehicleState) (o : TickOracle) : ℤ :=
  if o.ignToggle then 1 - s.ignition else s.ignition

/-- The stored `in_motion` flag after the tick: flipped with probability
0.3 only when ignition is on, otherwise left as it was. -/
def tickInMotion (s : VehicleState) (o : TickOracle) : ℤ :=
  if tickIgn s o = 1 then
    (if o.motToggle then 1 - s.inMotion else s.inMotion)
  else s.inMotion

/-- The `movement` local: the stored flag when ignition is on, else 0. -/
def tickMovement (s : VehicleState) (o : TickOracle) : ℤ :=
  if tickIgn s o = 1 then tickInMotion s o else 0

/-- Speed update: 0 when ignition is off; `max(0, speed - randint(0,5))`
when stationary; `max(0, min(350, speed + randint(-3,8)))` when moving. -/
def tickSpeed (s : VehicleState) (o : TickOracle) : ℤ :=
  if tickIgn s o = 0 then 0
  else if tickMovement s o = 0 then max 0 (s.speed - o.speedDec)
  else max 0 (min 350 (s.speed + o.speedChange))

/-- Instantaneous consumption of the tick. -/
def tickInstant (s : VehicleState) (o : TickOracle) : ℚ :=
  generateFuelConsumption (tickSpeed s o) o.engineLoad (tickMovement s o) o

/-- Trip odometer after the tick. -/
def tickTripOdo (s : VehicleState) (o : TickOracle) : ℤ :=
  if tickMovement s o = 1 then s.tripOdo + o.tripInc else s.tripOdo

/-- Total odometer after the tick. -/
def tickTotalOdo (s : VehicleState) (o : TickOracle) : ℤ :=
  if tickMovement s o = 1 then s.totalOdo + o.totalInc else s.totalOdo

/-- Fuel level after the tick. -/
def tickFuelLevel (s : VehicleState) (o : TickOracle) : ℚ :=
  if tickMovement s o = 1 ∧ tickIgn s o = 1 then
    max 0 (s.fuelLevel - o.fuelDec)
  else s.fuelLevel

/-- The `fuel_used_gps` local: the running total read with default 150.0,
plus `instant_consumption / 7200` when moving. -/
def tickFuelUsed (s : VehicleState) (o : TickOracle) : ℚ :=
  if tickMovement s o = 1 then
    s.fuelUsedTotal.getD 150 + tickInstant s o / 7200
  else s.fuelUsedTotal.getD 150

/-- The stored `fuel_used_total` key after the tick: written only when
moving. -/
def tickFuelUsedState (s : VehicleState) (o : TickOracle) : Option ℚ :=
  if tickMovement s o = 1 then some (tickFuelUsed s o) else s.fuelUsedTotal

/-- `TelemetryGenerator._generate_gps_coordinate`, lines 69-83: drift both
coordinates, then emit `f"+{lat:.5f}{lon:.5f}/"` — an explicit plus sign
only before the latitude; the longitude carries a sign only when it is
negative. -/
def formatGps (lat lon : ℚ) : String :=
  "+" ++ formatFixed5 lat ++ formatFixed5 lon ++ "/"

/-- The whole per-tick transition: returns the mutated state and the
emitted `TelemetryData` record. -/
def generateTelemetryData (s : VehicleState) (o : TickOracle) :
    VehicleState × TelemetryData :=
  let ignition := tickIgn s o
  let movement := tickMovement s o
  let speed := tickSpeed s o
  let lat := s.lat + o.latChange
  let lon := s.lon + o.lonChange
  let ev := generateEventData speed s.speed o.curveRand o.eventG
  ({ lat := lat
     lon := lon
     totalOdo := tickTotalOdo s o
     tripOdo := tickTripOdo s o
     fuelLevel := tickFuelLevel s o
     oilLevel := s.oilLevel
     ignition := ignition
     inMotion := tickInMotion s o
     speed := speed
     fuelUsedTotal := tickFuelUsedState s o },
   { ignition_status := ignition
     movement_status := movement
     speed := speed
     gps_location := formatGps lat lon
     gsm_signal := if o.gsmGood then o.gsmA else o.gsmB
     rpm := generateRpm ignition speed o
     engine_temp := generateEngineTemp ignition o
     engine_load := o.engineLoad
     oil_level := max 70 (min 100 (s.oilLevel + o.oilDelta))
     fuel_level := truncQ (tickFuelLevel s o)
     fuel_used_gps := pyRound 2 (tickFuelUsed s o)
     instant_consumption := tickInstant s o
     obd_faults := generateObdFaults o
     odometer_total := tickTotalOdo s o
     odometer_trip := tickTripOdo s o
     event_type := ev.1
     event_g_value := some ev.2 })

/-- `TelemetryGenerator.__init__`, lines 49-54: the class-level
`_base_state` plus the randomised `ignition`, `in_motion` and `speed`
entries (`randint(0,80)` when ignition is truthy, else 0). -/
def initVehicleState (ign mot spd : ℤ) : VehicleState :=
  { lat := 4.60971
    lon := -74.08175
    totalOdo := 2456789
    tripOdo := 34567
    fuelLevel := 68
    oilLevel := 80
    ignition := ign
    inMotion := mot
    speed := if ign ≠ 0 then spd else 0
    fuelUsedTotal := none }

/-! ## Identifier handling (`config.py` and `_get_current_imei`) -/

/-- The validity test `config.py` applies to list entries: exactly 15
characters, all decimal digits (`imei.isdigit() and len(imei) == 15`). -/
def isValidImei (s : String) : Bool :=
  s.length = 15 && s.all Char.isDigit

/-- The configuration triple `Settings` reads from the environment. -/
structure Settings where
  DEVICE_IMEI : Option String
  DEVICE_IMEI_LIST : Option String
  ALLOW_GENERATE_IMEI : Bool

/-- `Settings.imei_list`, lines 42-65: the single identifier (if truthy)
followed by the valid, stripped entries of the comma-separated list;
invalid entries are dropped. -/
def Settings.imeiList (s : Settings) : List String :=
  (match s.DEVICE_IMEI with
   | some v => if v ≠ "" then [v] else []
   | none => []) ++
  (match s.DEVICE_IMEI_LIST with
   | some raw =>
     ((raw.splitOn ",").map String.trim).filter
       (fun imei => imei ≠ "" && isValidImei imei)
   | none => [])

/-- `Settings.validate_imei_config`, lines 67-109: first configured
identifier if any; otherwise a synthesized one when allowed (`gen` stands
for the `generate_random_imei()` draw); otherwise the fatal
`RuntimeError("DEVICE_IMEI no configurado")`. -/
def validateImeiConfig (s : Settings) (gen : String) : Except String String :=
  match s.imeiList with
  | imei :: _ => Except.ok imei
  | [] =>
    if s.ALLOW_GENERATE_IMEI then Except.ok gen
    else Except.error "DEVICE_IMEI no configurado"

/-- The identifier-selection state `__init__` sets up: the configured
list and the round-robin cursor `_imei_index`, starting at 0. -/
structure ImeiSel where
  imeis : List String
  index : ℕ
  deriving Repr, DecidableEq

/-- `TelemetryGenerator.__init__`, lines 56-67: keep the configured list,
fail fast (`RuntimeError`) when it is empty and synthesis is forbidden,
and otherwise resolve the `_selected_imei` via `validate_imei_config`. -/
def generatorInit (s : Settings) (gen : String) :
    Except String (ImeiSel × String) :=
  if s.imeiList = [] ∧ ¬s.ALLOW_GENERATE_IMEI then
    Except.error "No IMEI configurado. Verifique DEVICE_IMEI o ALLOW_GENERATE_IMEI"
  else
    match validateImeiConfig s gen with
    | Except.ok sel => Except.ok (⟨s.imeiList, 0⟩, sel)
    | Except.error e => Except.error e

/-- `TelemetryGenerator._get_current_imei`, lines 255-272: with more than
one identifier advance the cursor modulo the length and return the new
entry; with exactly one return it; with none return a fresh synthetic
identifier when allowed, else the startup-selected one. -/
def getCurrentImei (st : ImeiSel) (allow : Bool) (selected fresh : String) :
    ImeiSel × String :=
  if 1 < st.imeis.length then
    let i := (st.index + 1) % st.imeis.length
    ({ st with index := i }, st.imeis.getD i "")
  else if st.imeis.length = 1 then (st, st.imeis.getD 0 "")
  else if allow then (st, fresh) else (st, selected)

/-- The list of identifiers `n` successive calls return, in call order. -/
def imeiSeq (allow : Bool) (selected fresh : String) :
    ℕ → ImeiSel → List String
  | 0, _ => []
  | n + 1, st =>
    let r := getCurrentImei st allow selected fresh
    r.2 :: imeiSeq allow selected fresh n r.1

/-! ## Helper lemmas -/

/-- A concrete valid tick draw, used to instantiate the theorems below:
no toggles fire, the OBD trigger fires and samples positions 1 and 9 of
the pool, and the oil draw is -2. -/
def oracleA : TickOracle :=
  { ignToggle := false, motToggle := false, speedDec := 0, speedChange := 0,
    rpmIdle := 800, rpmCity := 1500, rpmHwy := 2500, rpmHigh := 4000,
    engineLoad := 30, tempOff := 0, tempRun := 95, idleCons := 1/2,
    consAdj := 0, tripInc := 200, totalInc := 200, fuelDec := 1/100,
    latChange := 0, lonChange := 0, obdTrigger := true, obdIdxs := [1, 9],
    curveRand := false, eventG := 10, gsmGood := true, gsmA := 3, gsmB := 3,
    oilDelta := -2 }

theorem valid_engineLoad {o : TickOracle} (h : o.Valid) :
    30 ≤ o.engineLoad ∧ o.engineLoad ≤ 70 :=
  h.2.2.2.2.2.2.1

theorem valid_idleCons {o : TickOracle} (h : o.Valid) :
    1/5 ≤ o.idleCons ∧ o.idleCons ≤ 4/5 :=
  h.2.2.2.2.2.2.2.2.2.1

theorem valid_consAdj {o : TickOracle} (h : o.Valid) :
    -2 ≤ o.consAdj ∧ o.consAdj ≤ 3 :=
  h.2.2.2.2.2.2.2.2.2.2.1

theorem valid_tripInc {o : TickOracle} (h : o.Valid) :
    200 ≤ o.tripInc ∧ o.tripInc ≤ 500 :=
  h.2.2.2.2.2.2.2.2.2.2.2.1

theorem valid_totalInc {o : TickOracle} (h : o.Valid) :
    200 ≤ o.totalInc ∧ o.totalInc ≤ 500 :=
  h.2.2.2.2.2.2.2.2.2.2.2.2.1

theorem valid_obd {o : TickOracle} (h : o.Valid) :
    o.obdIdxs.Nodup ∧ 1 ≤ o.obdIdxs.length ∧ o.obdIdxs.length ≤ 3 ∧
      ∀ i ∈ o.obdIdxs, i < 14 :=
  h.2.2.2.2.2.2.2.2.2.2.2.2.2.2.2.2.1

theorem valid_eventG {o : TickOracle} (h : o.Valid) :
    10 ≤ o.eventG ∧ o.eventG ≤ 40 :=
  h.2.2.2.2.2.2.2.2.2.2.2.2.2.2.2.2.2.1

/-- Projection: the record's fault list is `_generate_obd_faults`. -/
theorem record_obd_faults (s : VehicleState) (o : TickOracle) :
    (generateTelemetryData s o).2.obd_faults = generateObdFaults o := rfl

/-- Projection: the record's speed is the updated speed. -/
theorem record_speed (s : VehicleState) (o : TickOracle) :
    (generateTelemetryData s o).2.speed = tickSpeed s o := rfl

/-- Projection: the record's movement flag is the tick's `movement`. -/
theorem record_movement (s : VehicleState) (o : TickOracle) :
    (generateTelemetryData s o).2.movement_status = tickMovement s o := rfl

/-- Projection: the record's instantaneous consumption. -/
theorem record_instant (s : VehicleState) (o : TickOracle) :
    (generateTelemetryData s o).2.instant_consumption = tickInstant s o := rfl

/-- Projection: the record's cumulative fuel-used value. -/
theorem record_fuel_used (s : VehicleState) (o : TickOracle) :
    (generateTelemetryData s o).2.fuel_used_gps = pyRound 2 (tickFuelUsed s o) := rfl

/-- Projection: the record's odometer fields are the updated counters. -/
theorem record_odometers (s : VehicleState) (o : TickOracle) :
    (generateTelemetryData s o).2.odometer_total = tickTotalOdo s o ∧
    (generateTelemetryData s o).2.odometer_trip = tickTripOdo s o :=
  ⟨rfl, rfl⟩

/-- The speed after any tick is nonnegative. -/
theorem tickSpeed_nonneg (s : VehicleState) (o : TickOracle) :
    0 ≤ tickSpeed s o := by
  unfold tickSpeed
  split_ifs
  · exact le_refl 0
  · exact le_max_left 0 _
  · exact le_max_left 0 _

/-- When the tick is stationary the instantaneous consumption is at least
0.2 (the idle draw is in [0.2, 0.8] and rounding cannot go below 0.2). -/
theorem tickInstant_idle_ge (s : VehicleState) (o : TickOracle)
    (hic : 1/5 ≤ o.idleCons) (hm : tickMovement s o = 0) :
    1/5 ≤ tickInstant s o := by
  unfold tickInstant generateFuelConsumption
  rw [if_pos hm]
  have h2 : ((2 : ℤ) : ℚ) ≤ o.idleCons * 10 ^ 1 := by push_cast; linarith
  calc (1/5 : ℚ) = ((2 : ℤ) : ℚ) / 10 ^ 1 := by norm_num
    _ ≤ pyRound 1 o.idleCons := le_pyRound 1 o.idleCons 2 h2

/-- When the tick is moving the instantaneous consumption is at least 9:
the base `8 + speed/20 + load/10` is at least 11 because the load draw is
at least 30 and the updated speed is nonnegative, and the adjustment draw
is at least -2. -/
theorem tickInstant_moving_ge (s : VehicleState) (o : TickOracle)
    (hload : 30 ≤ o.engineLoad) (hadj : -2 ≤ o.consAdj)
    (hm : tickMovement s o ≠ 0) :
    9 ≤ tickInstant s o := by
  unfold tickInstant generateFuelConsumption
  rw [if_neg hm]
  have hsp : (0 : ℚ) ≤ (tickSpeed s o : ℚ) := by
    exact_mod_cast tickSpeed_nonneg s o
  have hloadq : (30 : ℚ) ≤ (o.engineLoad : ℚ) := by exact_mod_cast hload
  have hbase : (9 : ℚ) ≤
      8 + (tickSpeed s o : ℚ) / 20 + (o.engineLoad : ℚ) / 10 + o.consAdj := by
    linarith
  have h90 : ((90 : ℤ) : ℚ) ≤
      (8 + (tickSpeed s o : ℚ) / 20 + (o.engineLoad : ℚ) / 10 + o.consAdj) * 10 ^ 1 := by
    push_cast
    linarith
  calc (9 : ℚ) = ((90 : ℤ) : ℚ) / 10 ^ 1 := by norm_num
    _ ≤ pyRound 1 _ := le_pyRound 1 _ 90 h90

/-- The instantaneous consumption of a valid tick is strictly positive. -/
theorem tickInstant_pos (s : VehicleState) (o : TickOracle) (h : o.Valid) :
    0 < tickInstant s o := by
  by_cases hm : tickMovement s o = 0
  · have := tickInstant_idle_ge s o (valid_idleCons h).1 hm
    linarith
  · have := tickInstant_moving_ge s o (valid_engineLoad h).1 (valid_consAdj h).1 hm
    linarith

/-- The running fuel-used total never decreases in one tick. -/
theorem tickFuelUsed_ge (s : VehicleState) (o : TickOracle) (h : o.Valid) :
    s.fuelUsedTotal.getD 150 ≤ tickFuelUsed s o := by
  unfold tickFuelUsed
  split_ifs with hm
  · have hpos := tickInstant_pos s o h
    have : (0 : ℚ) ≤ tickInstant s o / 7200 := by positivity
    linarith
  · exact le_refl _

/-- After a tick, the stored fuel-used key read with its default 150 is
exactly the value the tick emitted before rounding. -/
theorem state_fuelUsed_getD (s : VehicleState) (o : TickOracle) :
    (generateTelemetryData s o).1.fuelUsedTotal.getD 150 = tickFuelUsed s o := by
  show (tickFuelUsedState s o).getD 150 = tickFuelUsed s o
  unfold tickFuelUsedState
  split_ifs with hm
  · rfl
  · unfold tickFuelUsed
    rw [if_neg hm]

/-- The odometer counters never decrease in one tick. -/
theorem tickOdo_ge (s : VehicleState) (o : TickOracle) (h : o.Valid) :
    s.totalOdo ≤ tickTotalOdo s o ∧ s.tripOdo ≤ tickTripOdo s o := by
  have ht := (valid_totalInc h).1
  have hp := (valid_tripInc h).1
  unfold tickTotalOdo tickTripOdo
  constructor <;> split_ifs <;> omega

/-- The concrete draw `oracleA` is within every distribution's range. -/
theorem oracleA_valid : TickOracle.Valid oracleA := by
  refine ⟨?_, ?_, ?_, ?_, ?_, ?_, ?_, ?_, ?_, ?_, ?_, ?_, ?_, ?_, ?_, ?_, ?_, ?_, ?_, ?_, ?_⟩ <;>
    first
      | decide
      | norm_num [oracleA]

/-! ## Claims -/

/-- C1 counterexample: the pool `_obd_faults_pool` lists `"P0420"` at
positions 1 and 9, and `random.sample` picks distinct positions, not
distinct values; the valid draw `oracleA` (trigger fires, positions 1 and
9 sampled) makes the emitted `obd_faults` equal `["P0420", "P0420"]`,
which contains a duplicate code. -/
theorem c1_counterexample :
    TickOracle.Valid oracleA ∧
    (generateTelemetryData (initVehicleState 1 0 50) oracleA).2.obd_faults =
      ["P0420", "P0420"] ∧
    ¬ ((generateTelemetryData (initVehicleState 1 0 50) oracleA).2.obd_faults).Nodup := by
  refine ⟨oracleA_valid, by decide, by decide⟩

/-- C1 (amended): for every record produced by a tick, `obd_faults` has
length at most 3 and every code it contains is drawn from the fixed
14-entry catalog (which lists only 13 distinct codes, `"P0420"` appearing
twice, so the same code can occur twice in one record); the list is empty
whenever the 0.15-probability trigger does not fire. -/
theorem c1_obd_faults (s : VehicleState) (o : TickOracle) (h : o.Valid) :
    (generateTelemetryData s o).2.obd_faults.length ≤ 3 ∧
    (∀ c ∈ (generateTelemetryData s o).2.obd_faults, c ∈ obdFaultsPool) ∧
    (o.obdTrigger = false → (generateTelemetryData s o).2.obd_faults = []) := by
  obtain ⟨-, hlen1, hlen3, hmem⟩ := valid_obd h
  rw [record_obd_faults]
  unfold generateObdFaults
  refine ⟨?_, ?_, ?_⟩
  · split_ifs
    · simpa using hlen3
    · simp
  · intro c hc
    split_ifs at hc with ht
    · obtain ⟨i, hi, hic⟩ := List.mem_map.mp hc
      have hilt : i < obdFaultsPool.length := hmem i hi
      rw [List.getD_eq_getElem obdFaultsPool "" hilt] at hic
      exact hic ▸ List.getElem_mem hilt
    · simp at hc
  · intro ht
    simp [ht]

/-- C1 witness: the amended statement instantiated at the valid draw
`oracleA`. -/
theorem c1_witness :
    (generateTelemetryData (initVehicleState 1 0 50) oracleA).2.obd_faults.length ≤ 3 ∧
    (∀ c ∈ (generateTelemetryData (initVehicleState 1 0 50) oracleA).2.obd_faults,
      c ∈ obdFaultsPool) ∧
    (oracleA.obdTrigger = false →
      (generateTelemetryData (initVehicleState 1 0 50) oracleA).2.obd_faults = []) :=
  c1_obd_faults (initVehicleState 1 0 50) oracleA oracleA_valid

/-- C2: round-robin identifier selection.  With the three configured
identifiers `["A", "B", "C"]` and the cursor starting at 0, seven
successive calls to `_get_current_imei` return B,C,A,B,C,A,B; in general
a call with more than one identifier advances the cursor modulo the list
length and returns the new entry, and a call with exactly one identifier
returns it without moving the cursor. -/
theorem c2_round_robin :
    imeiSeq false "A" "" 7 ⟨["A", "B", "C"], 0⟩ =
      ["B", "C", "A", "B", "C", "A", "B"] ∧
    (∀ (st : ImeiSel) (allow : Bool) (sel fr x : String), st.imeis = [x] →
      getCurrentImei st allow sel fr = (st, x)) ∧
    (∀ (st : ImeiSel) (allow : Bool) (sel fr : String), 1 < st.imeis.length →
      getCurrentImei st allow sel fr =
        ({ st with index := (st.index + 1) % st.imeis.length },
          st.imeis.getD ((st.index + 1) % st.imeis.length) "")) := by
  refine ⟨by decide, ?_, ?_⟩
  · intro st allow sel fr x hx
    simp [getCurrentImei, hx]
  · intro st allow sel fr h
    unfold getCurrentImei
    rw [if_pos h]

/-- C2 witness: a single configured identifier is always returned and the
cursor does not move. -/
theorem c2_witness :
    getCurrentImei ⟨["352099001761481"], 0⟩ false "352099001761481" "" =
      (⟨["352099001761481"], 0⟩, "352099001761481") :=
  c2_round_robin.2.1 ⟨["352099001761481"], 0⟩ false "352099001761481" ""
    "352099001761481" rfl

/-- C5: driving-event derivation.  A speed delta above 5 gives event type
1 with G-value `min(255, 15 + 2 * delta)`; a delta below -5 gives event
type 2 with G-value `min(255, 20 + 2 * abs(delta))`; in particular speed
50 to 60 gives (1, 35) and speed 80 to 65 gives (2, 50). -/
theorem c5_event (prevSpeed speed : ℤ) (curveRand : Bool) (g : ℤ) :
    (5 < speed - prevSpeed →
      generateEventData speed prevSpeed curveRand g =
        (some 1, min 255 (15 + (speed - prevSpeed) * 2))) ∧
    (speed - prevSpeed < -5 →
      generateEventData speed prevSpeed curveRand g =
        (some 2, min 255 (20 + |speed - prevSpeed| * 2))) ∧
    generateEventData 60 50 curveRand g = (some 1, 35) ∧
    generateEventData 65 80 curveRand g = (some 2, 50) := by
  refine ⟨?_, ?_, ?_, ?_⟩
  · intro h
    unfold generateEventData
    rw [if_pos h]
  · intro h
    unfold generateEventData
    rw [if_neg (by omega), if_pos h]
  · unfold generateEventData
    norm_num
  · unfold generateEventData
    norm_num

/-- C5 witness: the acceleration branch applied at speeds 50 to 60. -/
theorem c5_witness :
    generateEventData 60 50 false 10 =
      (some 1, min 255 (15 + ((60 : ℤ) - 50) * 2)) :=
  (c5_event 50 60 false 10).1 (by decide)

/-- The reachable-speed invariant of C3: speed lies in [0, 350] and is 0
whenever ignition is off. -/
def SpeedInv (s : VehicleState) : Prop :=
  0 ≤ s.speed ∧ s.speed ≤ 350 ∧ (s.ignition = 0 → s.speed = 0)

/-- C3: reachable-state invariant of the per-tick transition.  Every
initial state of `__init__` (ignition drawn from 0 or 1, speed drawn from
[0, 80] when ignition is on, 0 otherwise) satisfies `SpeedInv`, and every
valid tick preserves it: after the tick, speed is 0 whenever ignition is
off and speed lies in [0, 350]. -/
theorem c3_speed_invariant :
    (∀ ign mot spd : ℤ, 0 ≤ spd → spd ≤ 80 →
      SpeedInv (initVehicleState ign mot spd)) ∧
    (∀ (s : VehicleState) (o : TickOracle), o.Valid → SpeedInv s →
      SpeedInv (generateTelemetryData s o).1) := by
  constructor
  · intro ign mot spd h0 h80
    unfold SpeedInv initVehicleState
    dsimp only
    split_ifs with hi
    · exact ⟨h0, by omega, fun h => absurd h hi⟩
    · exact ⟨le_refl 0, by norm_num, fun _ => rfl⟩
  · intro s o hv hs
    obtain ⟨hs0, hs350, hsoff⟩ := hs
    obtain ⟨hdec0, hdec5⟩ := hv.1
    have hstate : (generateTelemetryData s o).1.speed = tickSpeed s o := rfl
    have hign : (generateTelemetryData s o).1.ignition = tickIgn s o := rfl
    unfold SpeedInv
    rw [hstate, hign]
    unfold tickSpeed
    split_ifs with h1 h2
    · exact ⟨le_refl 0, by norm_num, fun _ => rfl⟩
    · refine ⟨le_max_left 0 _, max_le (by norm_num) (by omega), fun h => absurd h h1⟩
    · refine ⟨le_max_left 0 _,
        max_le (by norm_num) (le_trans (min_le_left _ _) (by norm_num)),
        fun h => absurd h h1⟩

/-- C3 witness: the invariant holds of a concrete initial state and is
preserved by a concrete valid tick from it. -/
theorem c3_witness :
    SpeedInv (initVehicleState 1 0 50) ∧
    SpeedInv (generateTelemetryData (initVehicleState 1 0 50) oracleA).1 :=
  ⟨c3_speed_invariant.1 1 0 50 (by norm_num) (by norm_num),
   c3_speed_invariant.2 (initVehicleState 1 0 50) oracleA oracleA_valid
     (c3_speed_invariant.1 1 0 50 (by norm_num) (by norm_num))⟩

/-- C4: across two consecutive valid ticks of the same generator, the
emitted total odometer, trip odometer and cumulative fuel-used value are
each non-decreasing from the first record to the second. -/
theorem c4_monotone (s : VehicleState) (o1 o2 : TickOracle)
    (h1 : o1.Valid) (h2 : o2.Valid) :
    (generateTelemetryData s o1).2.odometer_total ≤
      (generateTelemetryData (generateTelemetryData s o1).1 o2).2.odometer_total ∧
    (generateTelemetryData s o1).2.odometer_trip ≤
      (generateTelemetryData (generateTelemetryData s o1).1 o2).2.odometer_trip ∧
    (generateTelemetryData s o1).2.fuel_used_gps ≤
      (generateTelemetryData (generateTelemetryData s o1).1 o2).2.fuel_used_gps := by
  set s1 := (generateTelemetryData s o1).1 with hs1
  refine ⟨?_, ?_, ?_⟩
  · rw [(record_odometers s o1).1, (record_odometers s1 o2).1]
    have hstep := (tickOdo_ge s1 o2 h2).1
    have : s1.totalOdo = tickTotalOdo s o1 := rfl
    rw [this] at hstep
    exact hstep
  · rw [(record_odometers s o1).2, (record_odometers s1 o2).2]
    have hstep := (tickOdo_ge s1 o2 h2).2
    have : s1.tripOdo = tickTripOdo s o1 := rfl
    rw [this] at hstep
    exact hstep
  · rw [record_fuel_used s o1, record_fuel_used s1 o2]
    apply pyRound_mono
    have hstep := tickFuelUsed_ge s1 o2 h2
    rw [hs1, state_fuelUsed_getD s o1] at hstep
    exact hstep

/-- C4 witness: the monotonicity statement at a concrete state and two
concrete valid draws. -/
theorem c4_witness :
    (generateTelemetryData (initVehicleState 1 0 50) oracleA).2.odometer_total ≤
      (generateTelemetryData
        (generateTelemetryData (initVehicleState 1 0 50) oracleA).1
        oracleA).2.odometer_total ∧
    (generateTelemetryData (initVehicleState 1 0 50) oracleA).2.odometer_trip ≤
      (generateTelemetryData
        (generateTelemetryData (initVehicleState 1 0 50) oracleA).1
        oracleA).2.odometer_trip ∧
    (generateTelemetryData (initVehicleState 1 0 50) oracleA).2.fuel_used_gps ≤
      (generateTelemetryData
        (generateTelemetryData (initVehicleState 1 0 50) oracleA).1
        oracleA).2.fuel_used_gps :=
  c4_monotone (initVehicleState 1 0 50) oracleA oracleA oracleA_valid oracleA_valid

unseal Rat.add Rat.mul Rat.inv Rat.sub Rat.ofScientific in
/-- C6: at the generator's own base coordinates (latitude 4.60971,
longitude -74.08175, here perturbed by the valid zero drift of `oracleA`)
the emitted GPS string is `"+4.60971-74.08175/"`: the integer digits are
not zero-padded to the two/three-digit widths `±DD.DDDDD±DDD.DDDDD/`
claimed by the specification and by the function's own docstring and the
model's example (`"+04.60971-074.08175/"`), and the sign in front of the
longitude is only the negative number's own minus sign. -/
theorem c6_gps_format_bug :
    (generateTelemetryData (initVehicleState 1 0 50) oracleA).2.gps_location =
      "+4.60971-74.08175/" ∧
    (generateTelemetryData (initVehicleState 1 0 50) oracleA).2.gps_location ≠
      "+04.60971-074.08175/" := by
  constructor
  · decide
  · decide

/-- C7 counterexample: with the valid draw `oracleA` (oil draw -2) from
the initial state (stored oil level 80), the tick emits oil level 78 but
leaves the stored oil-level field at 80: the stored field is not replaced
by `clamp(80 + (-2), 70, 100) = 78` as the claim states. -/
theorem c7_counterexample :
    oracleA.oilDelta = -2 ∧
    (initVehicleState 1 0 50).oilLevel = 80 ∧
    (generateTelemetryData (initVehicleState 1 0 50) oracleA).2.oil_level = 78 ∧
    (generateTelemetryData (initVehicleState 1 0 50) oracleA).1.oilLevel = 80 ∧
    ¬ ((generateTelemetryData (initVehicleState 1 0 50) oracleA).1.oilLevel =
        max 70 (min 100 ((initVehicleState 1 0 50).oilLevel + oracleA.oilDelta))) := by
  refine ⟨by decide, by decide, by decide, by decide, by decide⟩

/-- C7 (amended): each tick emits `oil_level = clamp(stored oil level +
uniform_int(-2,1), 70, 100)`, which always lies in [70, 100], but it does
not mutate the stored oil-level field: the stored value is unchanged by
the tick, so the emitted oil level is recomputed each tick from the
unchanging stored base rather than performing a persistent random walk. -/
theorem c7_oil_level (s : VehicleState) (o : TickOracle) :
    (generateTelemetryData s o).2.oil_level =
      max 70 (min 100 (s.oilLevel + o.oilDelta)) ∧
    (generateTelemetryData s o).1.oilLevel = s.oilLevel ∧
    70 ≤ (generateTelemetryData s o).2.oil_level ∧
    (generateTelemetryData s o).2.oil_level ≤ 100 := by
  refine ⟨rfl, rfl, le_max_left 70 _, ?_⟩
  exact max_le (by norm_num) (min_le_left _ _)

/-- The emitted G-value of `_generate_event_data` lies in [10, 255]
whenever the third-branch draw is in its range [10, 40]. -/
theorem generateEventData_g_bounds (speed prev : ℤ) (c : Bool) (g : ℤ)
    (hg10 : 10 ≤ g) (hg40 : g ≤ 40) :
    10 ≤ (generateEventData speed prev c g).2 ∧
      (generateEventData speed prev c g).2 ≤ 255 := by
  unfold generateEventData
  dsimp only
  split_ifs with h1 h2
  · exact ⟨le_min (by norm_num) (by omega), min_le_left _ _⟩
  · have habs : (0 : ℤ) ≤ |speed - prev| * 2 :=
      mul_nonneg (abs_nonneg _) (by norm_num)
    exact ⟨le_min (by norm_num) (by linarith), min_le_left _ _⟩
  · exact ⟨hg10, by omega⟩
  · exact ⟨hg10, by omega⟩

/-- C9: every record carries a G-value.  `event_g_value` is always
present (`some`) and lies in [10, 255], even when `event_type` is `none`
(the third branch still draws `randint(10, 40)`), so a null
`event_g_value` never occurs. -/
theorem c9_event_g_value (s : VehicleState) (o : TickOracle) (h : o.Valid) :
    ∃ v, (generateTelemetryData s o).2.event_g_value = some v ∧
      10 ≤ v ∧ v ≤ 255 := by
  obtain ⟨hg10, hg40⟩ := valid_eventG h
  refine ⟨(generateEventData (tickSpeed s o) s.speed o.curveRand o.eventG).2,
    rfl, ?_⟩
  exact generateEventData_g_bounds (tickSpeed s o) s.speed o.curveRand o.eventG
    hg10 hg40

/-- C9 witness: the statement at a concrete state and valid draw. -/
theorem c9_witness :
    ∃ v, (generateTelemetryData (initVehicleState 1 0 50) oracleA).2.event_g_value =
      some v ∧ 10 ≤ v ∧ v ≤ 255 :=
  c9_event_g_value (initVehicleState 1 0 50) oracleA oracleA_valid

/-- C10: the instantaneous consumption of every valid tick is strictly
positive — at least 0.2 when the tick is stationary and at least 9 when
it is moving (the moving base `8 + speed/20 + load/10` is at least 11
because the load draw is at least 30, and the adjustment draw is at least
-2) — so the `ge=0` bound on `instant_consumption` cannot fail and each
moving tick strictly increases the stored cumulative fuel-used total. -/
theorem c10_instant_consumption (s : VehicleState) (o : TickOracle) (h : o.Valid) :
    0 < (generateTelemetryData s o).2.instant_consumption ∧
    ((generateTelemetryData s o).2.movement_status = 0 →
      1/5 ≤ (generateTelemetryData s o).2.instant_consumption) ∧
    ((generateTelemetryData s o).2.movement_status = 1 →
      9 ≤ (generateTelemetryData s o).2.instant_consumption) ∧
    ((generateTelemetryData s o).2.movement_status = 1 →
      s.fuelUsedTotal.getD 150 <
        (generateTelemetryData s o).1.fuelUsedTotal.getD 150) := by
  rw [record_instant, record_movement, state_fuelUsed_getD]
  refine ⟨tickInstant_pos s o h, ?_, ?_, ?_⟩
  · intro hm
    exact tickInstant_idle_ge s o (valid_idleCons h).1 hm
  · intro hm
    exact tickInstant_moving_ge s o (valid_engineLoad h).1 (valid_consAdj h).1
      (by rw [hm]; norm_num)
  · intro hm
    have h9 := tickInstant_moving_ge s o (valid_engineLoad h).1 (valid_consAdj h).1
      (by rw [hm]; norm_num)
    unfold tickFuelUsed
    rw [if_pos hm]
    have hdiv : (0 : ℚ) < tickInstant s o / 7200 :=
      div_pos (by linarith) (by norm_num)
    linarith

/-- C10 witness: the statement at a concrete state and valid draw. -/
theorem c10_witness :
    0 < (generateTelemetryData (initVehicleState 1 0 50) oracleA).2.instant_consumption ∧
    ((generateTelemetryData (initVehicleState 1 0 50) oracleA).2.movement_status = 0 →
      1/5 ≤ (generateTelemetryData (initVehicleState 1 0 50) oracleA).2.instant_consumption) ∧
    ((generateTelemetryData (initVehicleState 1 0 50) oracleA).2.movement_status = 1 →
      9 ≤ (generateTelemetryData (initVehicleState 1 0 50) oracleA).2.instant_consumption) ∧
    ((generateTelemetryData (initVehicleState 1 0 50) oracleA).2.movement_status = 1 →
      (initVehicleState 1 0 50).fuelUsedTotal.getD 150 <
        (generateTelemetryData (initVehicleState 1 0 50) oracleA).1.fuelUsedTotal.getD 150) :=
  c10_instant_consumption (initVehicleState 1 0 50) oracleA oracleA_valid

/-- C8: identifier resolution fails exactly when the merged list is empty
and synthesis is forbidden.  In that case both `validate_imei_config` and
the generator constructor raise (so startup aborts before any packet can
be produced); when the merged list is non-empty or synthesis is allowed,
both succeed. -/
theorem c8_imei_resolution (s : Settings) (gen : String) :
    (s.imeiList = [] ∧ s.ALLOW_GENERATE_IMEI = false →
      validateImeiConfig s gen = Except.error "DEVICE_IMEI no configurado" ∧
      (∃ e, generatorInit s gen = Except.error e)) ∧
    (s.imeiList ≠ [] ∨ s.ALLOW_GENERATE_IMEI = true →
      (∃ i, validateImeiConfig s gen = Except.ok i) ∧
      (∃ r, generatorInit s gen = Except.ok r)) := by
  constructor
  · rintro ⟨hempty, hallow⟩
    have hv : validateImeiConfig s gen = Except.error "DEVICE_IMEI no configurado" := by
      unfold validateImeiConfig
      rw [hempty]
      simp [hallow]
    refine ⟨hv, ?_⟩
    refine ⟨"No IMEI configurado. Verifique DEVICE_IMEI o ALLOW_GENERATE_IMEI", ?_⟩
    unfold generatorInit
    rw [if_pos ⟨hempty, by simp [hallow]⟩]
  · intro hor
    have hv : ∃ i, validateImeiConfig s gen = Except.ok i := by
      unfold validateImeiConfig
      cases hl : s.imeiList with
      | nil =>
        rcases hor with hne | hallow
        · exact absurd hl hne
        · exact ⟨gen, by simp [hallow]⟩
      | cons a l => exact ⟨a, rfl⟩
    obtain ⟨i, hi⟩ := hv
    refine ⟨⟨i, hi⟩, ⟨(⟨s.imeiList, 0⟩, i), ?_⟩⟩
    unfold generatorInit
    rw [if_neg, hi]
    rintro ⟨hempty, hallow⟩
    rcases hor with hne | hallow2
    · exact hne hempty
    · exact hallow hallow2

/-- C8 witness: empty configuration with synthesis disabled fails, and a
single valid identifier succeeds. -/
theorem c8_witness :
    (validateImeiConfig ⟨none, none, false⟩ "000000000000000" =
      Except.error "DEVICE_IMEI no configurado" ∧
      (∃ e, generatorInit ⟨none, none, false⟩ "000000000000000" =
        Except.error e)) ∧
    (∃ i, validateImeiConfig ⟨some "352099001761481", none, false⟩
      "000000000000000" = Except.ok i) :=
  ⟨(c8_imei_resolution ⟨none, none, false⟩ "000000000000000").1 ⟨rfl, rfl⟩,
   ((c8_imei_resolution ⟨some "352099001761481", none, false⟩
      "000000000000000").2 (Or.inl (by simp [Settings.imeiList]))).1⟩
